import Mathlib

/-!
Shallow embedding of the CloudNET real-time chat service.

The embedded code is the socket.io gateway server (Express routes plus the
`io.on("connection")` handlers) and the in-memory store (`store.ts`), together
with the presence relay variant (the server keeping a
`Map<string, Set<string>>` of room members keyed by userId).

Modelling conventions:
  * JavaScript `Map<string, V>` is an insertion-ordered association list
    `List (String × V)`; `get` is `getA` (first match), `set` is `setA`
    (replace the first entry with the key, else append), matching Map
    semantics.  A missing `messages` entry and an empty one are
    interchangeable, as in the source (`getMessages` returns `[]` for both).
  * JavaScript `Set<string>` is a duplicate-free insertion-ordered
    `List String`; `add` is `setAdd` (append when absent), `delete` is
    `List.erase`, `Array.from` is the identity.
  * `createId(prefix)` in the source draws from `Math.random` and `Date.now`;
    it is modelled as a counter (`nextId` in the store state) so that ids are
    concrete strings.  `createdAt` timestamps are omitted: no embedded claim
    depends on them.
  * A socket.io socket is a record holding `socket.data.userId`, the set of
    socket.io rooms it has joined, a connected flag, and the ordered log of
    events emitted to it (`outbox`).  `io.to(room).emit(ev)` appends `ev` to
    the outbox of every socket currently joined to `room`.  On transport
    disconnect socket.io removes the socket from every room (the application
    handler only logs), modelled by clearing `joined`.
-/

namespace CloudNet

/-- `Map.get(k) ?? null`: the value at the first entry whose key is `k`. -/
def getA {α : Type} : List (String × α) → String → Option α
  | [], _ => none
  | (k', v) :: rest, k => if k' = k then some v else getA rest k

/-- `Map.set(k, v)`: replace the value at the first entry whose key is `k`,
else append a new entry (JavaScript Maps keep insertion order). -/
def setA {α : Type} : List (String × α) → String → α → List (String × α)
  | [], k, v => [(k, v)]
  | (k', v') :: rest, k, v =>
    if k' = k then (k, v) :: rest else (k', v') :: setA rest k v

/-- `Set.add(x)`: append `x` when absent (JavaScript Sets keep insertion
order and never hold duplicates). -/
def setAdd (s : List String) (x : String) : List String :=
  if x ∈ s then s else s ++ [x]

theorem getA_setA_self {α : Type} (l : List (String × α)) (k : String) (v : α) :
    getA (setA l k v) k = some v := by
  induction l with
  | nil => simp [getA, setA]
  | cons p rest ih =>
    obtain ⟨k', v'⟩ := p
    by_cases h : k' = k
    · simp [getA, setA, h]
    · simp [getA, setA, h, ih]

theorem getA_setA_ne {α : Type} (l : List (String × α)) (k k' : String) (v : α)
    (h : k' ≠ k) : getA (setA l k v) k' = getA l k' := by
  have h' : k ≠ k' := Ne.symm h
  induction l with
  | nil => simp [getA, setA, h']
  | cons p rest ih =>
    obtain ⟨k'', v''⟩ := p
    by_cases hk : k'' = k
    · subst hk
      simp [getA, setA, h', Ne.symm h']
    · by_cases hk' : k'' = k'
      · simp [getA, setA, hk, hk', h]
      · simp [getA, setA, hk, hk', ih]

theorem setA_of_getA_none {α : Type} (l : List (String × α)) (k : String) (v : α)
    (h : getA l k = none) : setA l k v = l ++ [(k, v)] := by
  induction l with
  | nil => simp [setA]
  | cons p rest ih =>
    obtain ⟨k', v'⟩ := p
    by_cases hk : k' = k
    · simp [getA, hk] at h
    · simp [getA, hk] at h
      simp [setA, hk, ih h]

theorem getA_mem {α : Type} (l : List (String × α)) (k : String) (v : α)
    (h : getA l k = some v) : (k, v) ∈ l := by
  induction l with
  | nil => simp [getA] at h
  | cons p rest ih =>
    obtain ⟨k', v'⟩ := p
    by_cases hk : k' = k
    · subst hk
      simp [getA] at h
      simp [h]
    · simp [getA, hk] at h
      exact List.mem_cons_of_mem _ (ih h)

/-- `getA` over a key-preserving rewrite of every value. -/
theorem getA_keymap {α : Type} (h : String → α → α) (l : List (String × α))
    (k : String) :
    getA (l.map (fun p => (p.1, h p.1 p.2))) k = (getA l k).map (h k) := by
  induction l with
  | nil => simp [getA]
  | cons p rest ih =>
    obtain ⟨k', v'⟩ := p
    by_cases hk : k' = k
    · subst hk
      simp [getA]
    · simp [getA, hk, ih]

/-- A registered user (`types.ts` `User`; `createdAt` omitted). -/
structure User where
  id : String
  username : String
  password : String
deriving DecidableEq

/-- A chat message (`types.ts` `Message`; `createdAt` omitted). -/
structure Msg where
  id : String
  chatId : String
  senderId : String
  content : String
deriving DecidableEq

/-- A chat (`types.ts` `Chat = ChannelChat | DMChat | GroupChat`); a DM's
`userIds: [UserID, UserID]` pair is the two fields `userA`, `userB`. -/
inductive Chat where
  | channel (id : String) (name : String)
  | dm (id : String) (name : String) (userA : String) (userB : String)
  | gc (id : String) (name : String) (memberIds : List String)
deriving DecidableEq

/-- The in-memory store's mutable state (`store.ts` module-level Maps). -/
structure Store where
  users : List (String × User)
  usersByUsername : List (String × User)
  friendMap : List (String × List String)
  chats : List (String × Chat)
  tokens : List (String × String)
  messages : List (String × List Msg)
  nextId : Nat
deriving DecidableEq

/-- `createId(prefix)`; the source's random id generator is modelled as a
counter over the store's `nextId`. -/
def createId (pre : String) (n : Nat) : String := pre ++ toString n

/-- `store.createUser`: throws when the username is already taken, before
mutating anything; otherwise registers the user in all three maps. -/
def Store.createUser (s : Store) (username password : String) :
    Except String (User × Store) :=
  if (getA s.usersByUsername username).isSome then
    .error "Username already taken"
  else
    let user : User := { id := createId "user_" s.nextId, username, password }
    .ok (user,
      { s with
        users := setA s.users user.id user
        usersByUsername := setA s.usersByUsername user.username user
        friendMap := setA s.friendMap user.id []
        nextId := s.nextId + 1 })

/-- `store.getUserByUsername`. -/
def Store.getUserByUsername (s : Store) (username : String) : Option User :=
  getA s.usersByUsername username

/-- `store.getUserById`. -/
def Store.getUserById (s : Store) (uid : String) : Option User :=
  getA s.users uid

/-- `store.createTokenForUser`. -/
def Store.createTokenForUser (s : Store) (userId : String) : String × Store :=
  let token := createId "token_" s.nextId
  (token, { s with tokens := setA s.tokens token userId, nextId := s.nextId + 1 })

/-- `store.getUserIdFromToken`. -/
def Store.getUserIdFromToken (s : Store) (token : String) : Option String :=
  getA s.tokens token

/-- `store.getFriends`: maps friend ids to users, dropping dangling ids
(the source's `.filter(Boolean)`). -/
def Store.getFriends (s : Store) (userId : String) : List User :=
  ((getA s.friendMap userId).getD []).filterMap (fun fid => getA s.users fid)

/-- `store.getChat`. -/
def Store.getChat (s : Store) (chatId : String) : Option Chat :=
  getA s.chats chatId

/-- `store.getMessages`: `messages.get(chatId) || []`. -/
def Store.getMessages (s : Store) (chatId : String) : List Msg :=
  (getA s.messages chatId).getD []

/-- `store.addMessage`: builds the message and pushes it onto the chat's
history (creating the entry when absent). -/
def Store.addMessage (s : Store) (chatId senderId content : String) :
    Msg × Store :=
  let msg : Msg := { id := createId "msg_" s.nextId, chatId, senderId, content }
  (msg,
    { s with
      messages := setA s.messages chatId (s.getMessages chatId ++ [msg])
      nextId := s.nextId + 1 })

/-- The `find` predicate inside `store.createDM`: a DM chat whose user pair
is `(a, b)` in either order. -/
def isDMFor (c : Chat) (a b : String) : Bool :=
  match c with
  | .dm _ _ u0 u1 => (u0 = a && u1 = b) || (u0 = b && u1 = a)
  | _ => false

/-- `store.createDM`: returns the first existing DM for the unordered pair,
else creates, registers and returns a fresh one. -/
def Store.createDM (s : Store) (a b : String) : Chat × Store :=
  match (s.chats.map (fun p => p.2)).find? (fun c => isDMFor c a b) with
  | some c => (c, s)
  | none =>
    let did := createId "dm_" s.nextId
    let dmChat : Chat := .dm did "DM" a b
    (dmChat,
      { s with
        chats := setA s.chats did dmChat
        messages := setA s.messages did []
        nextId := s.nextId + 1 })

/-- `store.createGC`. -/
def Store.createGC (s : Store) (name creatorId : String)
    (memberIds : List String) : Chat × Store :=
  let gid := createId "gc_" s.nextId
  let gcChat : Chat := .gc gid name ((creatorId :: memberIds).foldl setAdd [])
  (gcChat,
    { s with
      chats := setA s.chats gid gcChat
      messages := setA s.messages gid []
      nextId := s.nextId + 1 })

/-- `store.listUserChats`: channels for everyone, DMs and group chats only
for their members. -/
def Store.listUserChats (s : Store) (userId : String) : List Chat :=
  (s.chats.map (fun p => p.2)).filter (fun c =>
    match c with
    | .channel _ _ => true
    | .dm _ _ u0 u1 => u0 = userId || u1 = userId
    | .gc _ _ memberIds => memberIds.contains userId)

/-- An out-event pushed to a socket.  `message` is the fan-out push
(`io.to(chatId).emit("message", {...msg, senderUsername})`).  `error` is the
wire protocol's error frame; the gateway server never emits it. -/
inductive OutEvent where
  | message (m : Msg) (senderUsername : String)
  | error (code : String)
deriving DecidableEq

/-- One socket.io socket on the gateway server: `socket.data.userId`, the
socket.io rooms it is in, liveness, and the ordered log of events emitted
to it. -/
structure GSocket where
  userId : Option String
  joined : List String
  connected : Bool
  outbox : List OutEvent
deriving DecidableEq

/-- The gateway server's state: the store plus all sockets (keyed by
socket id). -/
structure GState where
  store : Store
  sockets : List (String × GSocket)
deriving DecidableEq

/-- `io.to(room).emit(ev)`: append `ev` to the outbox of every socket
currently joined to `room`. -/
def emitToRoom (room : String) (ev : OutEvent)
    (l : List (String × GSocket)) : List (String × GSocket) :=
  l.map (fun p =>
    (p.1, if room ∈ p.2.joined
          then { p.2 with outbox := p.2.outbox ++ [ev] }
          else p.2))

/-- Apply `f` to the socket with id `sid`. -/
def updateSocket (sid : String) (f : GSocket → GSocket)
    (l : List (String × GSocket)) : List (String × GSocket) :=
  l.map (fun p => (p.1, if p.1 = sid then f p.2 else p.2))

/-- Transport-level connect: a fresh unbound socket. -/
def handleConnect (sid : String) (g : GState) : GState :=
  { g with
      sockets := setA g.sockets sid
        { userId := none, joined := [], connected := true, outbox := [] } }

/-- `socket.on("auth")`: resolve the token; on success set
`socket.data.userId` and join the personal room named by the user id.
An unknown token is silently ignored (`if (!userId) return`). -/
def handleAuth (sid token : String) (g : GState) : GState :=
  match g.store.getUserIdFromToken token with
  | none => g
  | some uid =>
    { g with
        sockets := updateSocket sid
          (fun k => { k with userId := some uid, joined := setAdd k.joined uid })
          g.sockets }

/-- `socket.on("join_chat")`: `socket.join(chatId)`, unconditionally. -/
def handleJoinChat (sid chatId : String) (g : GState) : GState :=
  { g with
      sockets := updateSocket sid
        (fun k => { k with joined := setAdd k.joined chatId }) g.sockets }

/-- `socket.on("leave_chat")`: `socket.leave(chatId)`. -/
def handleLeaveChat (sid chatId : String) (g : GState) : GState :=
  { g with
      sockets := updateSocket sid
        (fun k => { k with joined := k.joined.erase chatId }) g.sockets }

/-- `socket.on("send_message")`: silently return unless the socket carries a
bound user id resolving to a user and the chat exists; then persist via
`store.addMessage` and fan the message out to the chat's room. -/
def handleSendMessage (sid chatId content : String) (g : GState) : GState :=
  match getA g.sockets sid with
  | none => g
  | some sock =>
    match sock.userId with
    | none => g
    | some uid =>
      match g.store.getUserById uid with
      | none => g
      | some user =>
        match g.store.getChat chatId with
        | none => g
        | some _ =>
          let pr := g.store.addMessage chatId user.id content
          { store := pr.2,
            sockets := emitToRoom chatId (.message pr.1 user.username) g.sockets }

/-- Transport disconnect: socket.io removes the socket from every room; the
application's `disconnect` handler only logs. -/
def handleDisconnect (sid : String) (g : GState) : GState :=
  { g with
      sockets := updateSocket sid
        (fun k => { k with connected := false, joined := [] }) g.sockets }

/-- Result of `POST /chats/:chatId/send`. -/
inductive SendResult where
  | ok (m : Msg)
  | unauthorized
  | contentRequired
  | chatNotFound
deriving DecidableEq

/-- `app.post("/chats/:chatId/send")`: bearer auth, then the
`if (!content)` check, then chat lookup, then persist and fan out. -/
def httpSend (token chatId content : String) (g : GState) :
    SendResult × GState :=
  match g.store.getUserIdFromToken token with
  | none => (.unauthorized, g)
  | some uid =>
    match g.store.getUserById uid with
    | none => (.unauthorized, g)
    | some user =>
      if content = "" then (.contentRequired, g)
      else
        match g.store.getChat chatId with
        | none => (.chatNotFound, g)
        | some _ =>
          let pr := g.store.addMessage chatId user.id content
          (.ok pr.1,
            { store := pr.2,
              sockets := emitToRoom chatId (.message pr.1 user.username) g.sockets })

/-- Result of `POST /auth/register`. -/
inductive RegisterResult where
  | ok (user : User) (token : String)
  | badRequest (error : String)
deriving DecidableEq

/-- `app.post("/auth/register")`: missing fields are a 400; a thrown
`createUser` error is caught and surfaced as a 400 with its message. -/
def httpRegister (username password : String) (g : GState) :
    RegisterResult × GState :=
  if username = "" || password = "" then
    (.badRequest "username and password required", g)
  else
    match g.store.createUser username password with
    | .error e => (.badRequest e, g)
    | .ok (user, s') =>
      let pr := s'.createTokenForUser user.id
      (.ok user pr.1, { g with store := pr.2 })

/-- One gateway event: the in-events of the socket server plus the HTTP
routes that touch message state, transport connect and disconnect. -/
inductive GStep : GState → GState → Prop where
  | connect (g : GState) (sid : String) : GStep g (handleConnect sid g)
  | auth (g : GState) (sid token : String) : GStep g (handleAuth sid token g)
  | joinChat (g : GState) (sid chatId : String) :
      GStep g (handleJoinChat sid chatId g)
  | leaveChat (g : GState) (sid chatId : String) :
      GStep g (handleLeaveChat sid chatId g)
  | sendMessage (g : GState) (sid chatId content : String) :
      GStep g (handleSendMessage sid chatId content g)
  | httpSendEv (g : GState) (token chatId content : String) :
      GStep g (httpSend token chatId content g).2
  | register (g : GState) (username password : String) :
      GStep g (httpRegister username password g).2
  | disconnect (g : GState) (sid : String) : GStep g (handleDisconnect sid g)

/-- Every `message` out-event delivered to any socket carries a message that
is present in the store's history for its chat: fan-out happens only after
persistence. -/
def outboxPersisted (g : GState) : Prop :=
  ∀ p ∈ g.sockets, ∀ ev ∈ p.2.outbox, ∀ m u,
    ev = OutEvent.message m u → m ∈ g.store.getMessages m.chatId

/-- An out-event pushed by the presence relay server: the full presence
snapshot (`presence_update` with `Array.from(rooms.get(roomId))`) or a
relayed message (its random id and timestamp omitted). -/
inductive REvent where
  | presence (roomId : String) (userIds : List String)
  | message (roomId senderId content : String)
deriving DecidableEq

/-- A socket on the relay server: joined socket.io rooms, liveness, and the
ordered log of events emitted to it. -/
structure RSocket where
  joined : List String
  connected : Bool
  outbox : List REvent
deriving DecidableEq

/-- The relay server's state: sockets plus the module-level
`rooms = new Map<string, Set<string>>()` of userIds per room. -/
structure RState where
  sockets : List (String × RSocket)
  rooms : List (String × List String)
deriving DecidableEq

/-- Relay `io.to(room).emit(ev)`. -/
def remitToRoom (room : String) (ev : REvent)
    (l : List (String × RSocket)) : List (String × RSocket) :=
  l.map (fun p =>
    (p.1, if room ∈ p.2.joined
          then { p.2 with outbox := p.2.outbox ++ [ev] }
          else p.2))

/-- Apply `f` to the relay socket with id `sid`. -/
def rupdateSocket (sid : String) (f : RSocket → RSocket)
    (l : List (String × RSocket)) : List (String × RSocket) :=
  l.map (fun p => (p.1, if p.1 = sid then f p.2 else p.2))

/-- `socket.on("join_room")`: `socket.join(roomId)`, add `userId` to the
room's Set (creating it when absent), then emit the full snapshot to the
room (the joiner included, having just joined). -/
def handleJoinRoom (sid roomId userId : String) (r : RState) : RState :=
  let sockets1 := rupdateSocket sid
    (fun k => { k with joined := setAdd k.joined roomId }) r.sockets
  let set1 := setAdd ((getA r.rooms roomId).getD []) userId
  { sockets := remitToRoom roomId (.presence roomId set1) sockets1,
    rooms := setA r.rooms roomId set1 }

/-- `socket.on("leave_room")`: `socket.leave(roomId)`; when the room's Set
exists, delete `userId` from it and emit the snapshot to the remaining
members (the leaver excluded, having just left). -/
def handleLeaveRoom (sid roomId userId : String) (r : RState) : RState :=
  let sockets1 := rupdateSocket sid
    (fun k => { k with joined := k.joined.erase roomId }) r.sockets
  match getA r.rooms roomId with
  | none => { r with sockets := sockets1 }
  | some set =>
    let set1 := set.erase userId
    { sockets := remitToRoom roomId (.presence roomId set1) sockets1,
      rooms := setA r.rooms roomId set1 }

/-- Relay `socket.on("send_message")`: pure fan-out of the payload to the
room, no persistence and no checks. -/
def handleRelaySend (roomId senderId content : String) (r : RState) : RState :=
  { r with
      sockets := remitToRoom roomId (.message roomId senderId content) r.sockets }

/-- Relay transport disconnect: socket.io removes the socket from every
room; no application handler runs, so the `rooms` map is untouched and
nothing is emitted. -/
def handleRDisconnect (sid : String) (r : RState) : RState :=
  { r with
      sockets := rupdateSocket sid
        (fun k => { k with connected := false, joined := [] }) r.sockets }

theorem getA_updateSocket (sid : String) (f : GSocket → GSocket)
    (l : List (String × GSocket)) (k : String) :
    getA (updateSocket sid f l) k
      = (getA l k).map (fun v => if k = sid then f v else v) :=
  getA_keymap (fun k' v => if k' = sid then f v else v) l k

theorem getA_emitToRoom (room : String) (ev : OutEvent)
    (l : List (String × GSocket)) (k : String) :
    getA (emitToRoom room ev l) k
      = (getA l k).map (fun v =>
          if room ∈ v.joined then { v with outbox := v.outbox ++ [ev] } else v) := by
  induction l with
  | nil => simp [getA, emitToRoom]
  | cons p rest ih =>
    obtain ⟨k', v'⟩ := p
    by_cases hk : k' = k
    · simp [getA, emitToRoom, hk]
    · simpa [getA, emitToRoom, hk] using ih

theorem getA_rupdateSocket (sid : String) (f : RSocket → RSocket)
    (l : List (String × RSocket)) (k : String) :
    getA (rupdateSocket sid f l) k
      = (getA l k).map (fun v => if k = sid then f v else v) :=
  getA_keymap (fun k' v => if k' = sid then f v else v) l k

theorem getA_remitToRoom (room : String) (ev : REvent)
    (l : List (String × RSocket)) (k : String) :
    getA (remitToRoom room ev l) k
      = (getA l k).map (fun v =>
          if room ∈ v.joined then { v with outbox := v.outbox ++ [ev] } else v) := by
  induction l with
  | nil => simp [getA, remitToRoom]
  | cons p rest ih =>
    obtain ⟨k', v'⟩ := p
    by_cases hk : k' = k
    · simp [getA, remitToRoom, hk]
    · simpa [getA, remitToRoom, hk] using ih

theorem setAdd_of_mem {s : List String} {x : String} (h : x ∈ s) :
    setAdd s x = s := by
  simp [setAdd, h]

theorem mem_setAdd_self (s : List String) (x : String) : x ∈ setAdd s x := by
  by_cases h : x ∈ s <;> simp [setAdd, h]

/-- The live membership the relay maintains for a room: its `rooms` map
entry (empty when absent). -/
def roomMembers (r : RState) (roomId : String) : List String :=
  (getA r.rooms roomId).getD []

theorem roomMembers_join_self (r : RState) (sid roomId userId : String) :
    roomMembers (handleJoinRoom sid roomId userId r) roomId
      = setAdd (roomMembers r roomId) userId := by
  simp [handleJoinRoom, roomMembers, getA_setA_self]

/-- C7: on the relay, `join_room` is idempotent — a second identical join
leaves the room's live membership unchanged, so two joins grow it by exactly
one — and `leave_room` for a userId that is not a member (including a room
never joined) leaves the membership unchanged. -/
theorem c7_join_idempotent_leave_noop
    (r r' : RState) (sid sid' roomId userId q u' : String)
    (h : userId ∉ roomMembers r roomId) (h' : u' ∉ roomMembers r' q) :
    (roomMembers (handleJoinRoom sid roomId userId r) roomId).length
        = (roomMembers r roomId).length + 1
    ∧ roomMembers
        (handleJoinRoom sid roomId userId (handleJoinRoom sid roomId userId r))
        roomId
        = roomMembers (handleJoinRoom sid roomId userId r) roomId
    ∧ roomMembers (handleLeaveRoom sid' q u' r') q = roomMembers r' q := by
  refine ⟨?_, ?_, ?_⟩
  · rw [roomMembers_join_self]
    simp [setAdd, h]
  · simp only [roomMembers_join_self]
    exact setAdd_of_mem (mem_setAdd_self _ _)
  · unfold handleLeaveRoom
    cases hq : getA r'.rooms q with
    | none => simp [roomMembers, hq]
    | some s =>
      have hs : roomMembers r' q = s := by simp [roomMembers, hq]
      have herase : s.erase u' = s := List.erase_of_not_mem (hs ▸ h')
      simp [roomMembers, hq, getA_setA_self, herase, hs]

/-- A tiny relay state for the C7 witness: one fresh socket, no rooms. -/
def c7rA : RState :=
  { sockets := [("s1", { joined := [], connected := true, outbox := [] })],
    rooms := [] }

/-- A tiny relay state for the C7 witness: room `r2` holding `v`. -/
def c7rB : RState := { sockets := [], rooms := [("r2", ["v"])] }

/-- C7 witness. -/
theorem c7_witness :
    (roomMembers (handleJoinRoom "s1" "r1" "u" c7rA) "r1").length
        = (roomMembers c7rA "r1").length + 1
    ∧ roomMembers
        (handleJoinRoom "s1" "r1" "u" (handleJoinRoom "s1" "r1" "u" c7rA)) "r1"
        = roomMembers (handleJoinRoom "s1" "r1" "u" c7rA) "r1"
    ∧ roomMembers (handleLeaveRoom "s2" "r2" "w" c7rB) "r2"
        = roomMembers c7rB "r2" :=
  c7_join_idempotent_leave_noop c7rA c7rB "s1" "s2" "r1" "u" "r2" "w"
    (by decide) (by decide)

theorem mem_map_pair {α : Type} (f : String × α → String × α)
    (l : List (String × α)) {p q : String × α} (hp : p ∈ l)
    (hq : f p = q) : q ∈ l.map f :=
  hq ▸ List.mem_map_of_mem f hp

/-- Relay state for the C5 counterexample: two fresh sockets (two live
connections of the same identity `u`). -/
def c5r0 : RState :=
  { sockets := [("s1", { joined := [], connected := true, outbox := [] }),
                ("s2", { joined := [], connected := true, outbox := [] })],
    rooms := [] }

/-- C5 counterexample: identity `u` joins room `r` on two connections `s1`
and `s2`; then `s1` leaves.  Connection `s2` is still live and joined to `r`
as `u`, yet the presence snapshot pushed to it after the leave settles is
`[]` — the identity with a remaining live connection is missing, because
`leave_room` deletes the userId from the room's Set outright. -/
theorem c5_counterexample :
    getA (handleLeaveRoom "s1" "r" "u"
        (handleJoinRoom "s2" "r" "u" (handleJoinRoom "s1" "r" "u" c5r0))).sockets
      "s2"
      = some { joined := ["r"], connected := true,
               outbox := [REvent.presence "r" ["u"], REvent.presence "r" []] }
    ∧ (handleLeaveRoom "s1" "r" "u"
        (handleJoinRoom "s2" "r" "u" (handleJoinRoom "s1" "r" "u" c5r0))).rooms
      = [("r", [])] := by
  decide

/-- C5 (amended): after a join or leave settles, the snapshot pushed to the
room's (other) member connections is exactly the relay's maintained per-room
userId list — on join, the previous list with the joining `userId` appended
when absent; on leave (of a tracked room), the previous list with `userId`
removed outright.  The list counts the userIds supplied in join/leave
payloads, not identities with at least one live connection. -/
theorem c5_presence_snapshot_is_maintained_set
    (r : RState) (sid roomId userId : String) (uset : List String)
    (hset : getA r.rooms roomId = some uset) :
    (roomMembers (handleJoinRoom sid roomId userId r) roomId
        = setAdd (roomMembers r roomId) userId
      ∧ ∀ p ∈ r.sockets, p.1 ≠ sid → roomId ∈ p.2.joined →
          (p.1, { p.2 with outbox := p.2.outbox
              ++ [REvent.presence roomId (setAdd (roomMembers r roomId) userId)] })
            ∈ (handleJoinRoom sid roomId userId r).sockets)
    ∧ (roomMembers (handleLeaveRoom sid roomId userId r) roomId
        = uset.erase userId
      ∧ ∀ p ∈ r.sockets, p.1 ≠ sid → roomId ∈ p.2.joined →
          (p.1, { p.2 with outbox := p.2.outbox
              ++ [REvent.presence roomId (uset.erase userId)] })
            ∈ (handleLeaveRoom sid roomId userId r).sockets) := by
  have hmembers : roomMembers r roomId = uset := by simp [roomMembers, hset]
  refine ⟨⟨roomMembers_join_self r sid roomId userId, ?_⟩, ⟨?_, ?_⟩⟩
  · intro p hp hne hj
    show _ ∈ remitToRoom roomId _ (rupdateSocket sid _ r.sockets)
    rw [remitToRoom, rupdateSocket, List.map_map]
    refine mem_map_pair _ _ hp ?_
    simp [Function.comp, hne, hj, roomMembers]
  · simp [handleLeaveRoom, hset, roomMembers, getA_setA_self]
  · intro p hp hne hj
    show _ ∈ (handleLeaveRoom sid roomId userId r).sockets
    simp only [handleLeaveRoom, hset]
    rw [remitToRoom, rupdateSocket, List.map_map]
    refine mem_map_pair _ _ hp ?_
    simp [Function.comp, hne, hj]

/-- C5 witness state: `s2` is another member connection of room `r`, whose
tracked userId set is `["u", "v"]`. -/
def c5rw : RState :=
  { sockets := [("s1", { joined := ["r"], connected := true, outbox := [] }),
                ("s2", { joined := ["r"], connected := true, outbox := [] })],
    rooms := [("r", ["u", "v"])] }

/-- C5 witness. -/
theorem c5_witness :
    (roomMembers (handleJoinRoom "s1" "r" "w" c5rw) "r"
        = setAdd (roomMembers c5rw "r") "w"
      ∧ ∀ p ∈ c5rw.sockets, p.1 ≠ "s1" → "r" ∈ p.2.joined →
          (p.1, { p.2 with outbox := p.2.outbox
              ++ [REvent.presence "r" (setAdd (roomMembers c5rw "r") "w")] })
            ∈ (handleJoinRoom "s1" "r" "w" c5rw).sockets)
    ∧ (roomMembers (handleLeaveRoom "s1" "r" "w" c5rw) "r"
        = (["u", "v"] : List String).erase "w"
      ∧ ∀ p ∈ c5rw.sockets, p.1 ≠ "s1" → "r" ∈ p.2.joined →
          (p.1, { p.2 with outbox := p.2.outbox
              ++ [REvent.presence "r" ((["u", "v"] : List String).erase "w")] })
            ∈ (handleLeaveRoom "s1" "r" "w" c5rw).sockets) :=
  c5_presence_snapshot_is_maintained_set c5rw "s1" "r" "w" ["u", "v"] (by decide)

/-- Relay state for the C6 counterexample: socket `s1` is joined to rooms
`r1` and `r2`, both tracking identity `u`; `s2` is another member of `r1`. -/
def c6r0 : RState :=
  { sockets := [("s1", { joined := ["r1", "r2"], connected := true, outbox := [] }),
                ("s2", { joined := ["r1"], connected := true, outbox := [] })],
    rooms := [("r1", ["u"]), ("r2", ["u"])] }

/-- C6 counterexample: when `s1` (identity `u`, joined to `r1` and `r2`)
disconnects, the relay's rooms map still lists `u` in both rooms — the
subsequent snapshots do not exclude the departed connection's identity —
and no presence broadcast is emitted (member `s2`'s outbox stays empty). -/
theorem c6_counterexample :
    (handleRDisconnect "s1" c6r0).rooms = [("r1", ["u"]), ("r2", ["u"])]
    ∧ getA (handleRDisconnect "s1" c6r0).sockets "s2"
        = some { joined := ["r1"], connected := true, outbox := [] } := by
  decide

/-- C6 (amended): disconnect removes the socket from every socket.io room,
so no further message or presence event is ever delivered to it, and no
socket's outbox changes (no presence broadcast); but the relay's rooms map
is left untouched, so the departed connection's identity stays in every
room's tracked set until an explicit leave_room. -/
theorem c6_disconnect_no_presence_cleanup
    (r : RState) (sid : String) (k : RSocket)
    (hk : getA r.sockets sid = some k) :
    (handleRDisconnect sid r).rooms = r.rooms
    ∧ getA (handleRDisconnect sid r).sockets sid
        = some { k with connected := false, joined := [] }
    ∧ (∀ p ∈ r.sockets,
        (p.1, if p.1 = sid
              then { p.2 with connected := false, joined := [] }
              else p.2)
          ∈ (handleRDisconnect sid r).sockets)
    ∧ (∀ (r' : RState) (k' : RSocket),
        getA r'.sockets sid = some k' → k'.joined = [] →
        (∀ roomId senderId content,
          getA (handleRelaySend roomId senderId content r').sockets sid
            = some k')
        ∧ (∀ sid' roomId uid, sid' ≠ sid →
            getA (handleJoinRoom sid' roomId uid r').sockets sid = some k')
        ∧ (∀ sid' roomId uid, sid' ≠ sid →
            getA (handleLeaveRoom sid' roomId uid r').sockets sid = some k')) := by
  refine ⟨rfl, ?_, ?_, ?_⟩
  · simp [handleRDisconnect, getA_rupdateSocket, hk]
  · intro p hp
    exact List.mem_map_of_mem _ hp
  · intro r' k' hk' hjoined
    refine ⟨?_, ?_, ?_⟩
    · intro roomId senderId content
      simp [handleRelaySend, getA_remitToRoom, hk', hjoined]
    · intro sid' roomId uid hne
      have hne' : sid ≠ sid' := Ne.symm hne
      simp [handleJoinRoom, getA_remitToRoom, getA_rupdateSocket, hk', hjoined,
        hne']
    · intro sid' roomId uid hne
      have hne' : sid ≠ sid' := Ne.symm hne
      cases hq : getA r'.rooms roomId with
      | none => simp [handleLeaveRoom, hq, getA_rupdateSocket, hk', hne']
      | some uset =>
        simp [handleLeaveRoom, hq, getA_remitToRoom, getA_rupdateSocket, hk',
          hjoined, hne']

/-- C6 witness. -/
theorem c6_witness :
    (handleRDisconnect "s1" c6r0).rooms = c6r0.rooms
    ∧ getA (handleRDisconnect "s1" c6r0).sockets "s1"
        = some { joined := ([] : List String), connected := false, outbox := [] }
    ∧ (∀ p ∈ c6r0.sockets,
        (p.1, if p.1 = "s1"
              then { p.2 with connected := false, joined := [] }
              else p.2)
          ∈ (handleRDisconnect "s1" c6r0).sockets)
    ∧ (∀ (r' : RState) (k' : RSocket),
        getA r'.sockets "s1" = some k' → k'.joined = [] →
        (∀ roomId senderId content,
          getA (handleRelaySend roomId senderId content r').sockets "s1"
            = some k')
        ∧ (∀ sid' roomId uid, sid' ≠ "s1" →
            getA (handleJoinRoom sid' roomId uid r').sockets "s1" = some k')
        ∧ (∀ sid' roomId uid, sid' ≠ "s1" →
            getA (handleLeaveRoom sid' roomId uid r').sockets "s1" = some k')) :=
  c6_disconnect_no_presence_cleanup c6r0 "s1"
    { joined := ["r1", "r2"], connected := true, outbox := [] } (by decide)

/-- Store for the C8 counterexample: two users with valid tokens. -/
def c8store : Store :=
  { users := [("u1", { id := "u1", username := "alice", password := "pw" }),
              ("u2", { id := "u2", username := "bob", password := "pw" })],
    usersByUsername := [("alice", { id := "u1", username := "alice", password := "pw" }),
                        ("bob", { id := "u2", username := "bob", password := "pw" })],
    friendMap := [], chats := [],
    tokens := [("t1", "u1"), ("t2", "u2")],
    messages := [], nextId := 0 }

/-- Gateway state for the C8 counterexample: one unbound socket. -/
def c8g0 : GState :=
  { store := c8store,
    sockets := [("s", { userId := none, joined := [], connected := true, outbox := [] })] }

/-- C8 counterexample: socket `s` authenticates as `u1`, then re-authenticates
with a valid token for a different identity `u2`.  The binding is silently
overwritten to `u2` (the original identity does not remain in effect) and no
error event is emitted (outbox stays empty) — there is no `AlreadyBound`
rejection. -/
theorem c8_counterexample :
    (getA (handleAuth "s" "t2" (handleAuth "s" "t1" c8g0)).sockets "s").map
        (fun k => (k.userId, k.outbox))
      = some (some "u2", []) := by
  decide

/-- C8 (amended): every `auth` carrying a token that resolves to a user id
rebinds `socket.data.userId` to that id, silently overwriting any previous
binding (last write wins; no `AlreadyBound` error exists and no error event
is emitted); an `auth` with an unknown token leaves the state unchanged. -/
theorem c8_auth_overwrites_binding
    (g : GState) (sid token uid : String) (k : GSocket)
    (h1 : g.store.getUserIdFromToken token = some uid)
    (h2 : getA g.sockets sid = some k) :
    getA (handleAuth sid token g).sockets sid
      = some { k with userId := some uid, joined := setAdd k.joined uid }
    ∧ ∀ token', g.store.getUserIdFromToken token' = none →
        handleAuth sid token' g = g := by
  constructor
  · simp [handleAuth, h1, getA_updateSocket, h2]
  · intro token' h
    simp [handleAuth, h]

/-- C8 witness. -/
theorem c8_witness :
    getA (handleAuth "s" "t1" c8g0).sockets "s"
      = some { userId := some "u1", joined := setAdd [] "u1", connected := true,
               outbox := [] }
    ∧ ∀ token', c8g0.store.getUserIdFromToken token' = none →
        handleAuth "s" token' c8g0 = c8g0 :=
  c8_auth_overwrites_binding c8g0 "s" "t1" "u1"
    { userId := none, joined := [], connected := true, outbox := [] }
    (by decide) (by decide)

/-- Store for the C4 counterexample: a private group room `g1` whose
authoritative member list is `["alice", "bob"]`; `dave` is registered but is
not a member. -/
def c4store : Store :=
  { users := [("dave", { id := "dave", username := "dave", password := "pw" })],
    usersByUsername := [("dave", { id := "dave", username := "dave", password := "pw" })],
    friendMap := [],
    chats := [("g1", Chat.gc "g1" "private" ["alice", "bob"])],
    tokens := [("td", "dave")],
    messages := [("g1", [])], nextId := 0 }

/-- Gateway state for the C4 counterexample: `dave`'s authenticated socket. -/
def c4g0 : GState :=
  { store := c4store,
    sockets := [("sd", { userId := some "dave", joined := [], connected := true,
                         outbox := [] })] }

/-- C4 counterexample: `dave` is not in group room `g1`'s authoritative
member list (`listUserChats "dave"` is empty), yet `join_chat` adds his
connection to `g1`'s live membership and emits no `Forbidden` error —
contradicting the claim that such a join is rejected and the connection is
not added. -/
theorem c4_counterexample :
    c4store.listUserChats "dave" = []
    ∧ getA (handleJoinChat "sd" "g1" c4g0).sockets "sd"
        = some { userId := some "dave", joined := ["g1"], connected := true,
                 outbox := [] } := by
  decide

/-- C4 (amended): `join_chat` performs no authorization at all: it adds any
connection — whatever its bound identity, and whether or not that identity
is in the room's authoritative member list — to the requested room's live
membership, emits nothing, and leaves the store untouched.  There is no
`Forbidden` rejection (the store's membership list is consulted only by
`listUserChats`). -/
theorem c4_join_has_no_authorization
    (g : GState) (sid chatId : String) (k : GSocket)
    (h : getA g.sockets sid = some k) :
    getA (handleJoinChat sid chatId g).sockets sid
      = some { k with joined := setAdd k.joined chatId }
    ∧ (handleJoinChat sid chatId g).store = g.store
    ∧ ∀ p ∈ g.sockets, p.1 ≠ sid → p ∈ (handleJoinChat sid chatId g).sockets := by
  refine ⟨?_, rfl, ?_⟩
  · simp [handleJoinChat, getA_updateSocket, h]
  · intro p hp hne
    refine mem_map_pair _ _ hp ?_
    simp [hne]

/-- C4 witness. -/
theorem c4_witness :
    getA (handleJoinChat "sd" "g1" c4g0).sockets "sd"
      = some { userId := some "dave", joined := setAdd [] "g1", connected := true,
               outbox := [] }
    ∧ (handleJoinChat "sd" "g1" c4g0).store = c4g0.store
    ∧ ∀ p ∈ c4g0.sockets, p.1 ≠ "sd" →
        p ∈ (handleJoinChat "sd" "g1" c4g0).sockets :=
  c4_join_has_no_authorization c4g0 "sd" "g1"
    { userId := some "dave", joined := [], connected := true, outbox := [] }
    (by decide)

theorem getMessages_addMessage_self (s : Store) (c sid ct : String) :
    ((s.addMessage c sid ct).2).getMessages c
      = s.getMessages c ++ [(s.addMessage c sid ct).1] := by
  simp [Store.addMessage, Store.getMessages, getA_setA_self]

theorem getMessages_addMessage_ne (s : Store) (c c' sid ct : String)
    (h : c' ≠ c) :
    ((s.addMessage c sid ct).2).getMessages c' = s.getMessages c' := by
  simp [Store.addMessage, Store.getMessages, getA_setA_ne _ _ _ _ h]

theorem mem_getMessages_addMessage (s : Store) (c c' sid ct : String)
    (m : Msg) (hm : m ∈ s.getMessages c') :
    m ∈ ((s.addMessage c sid ct).2).getMessages c' := by
  by_cases h : c' = c
  · subst h
    rw [getMessages_addMessage_self]
    exact List.mem_append_left _ hm
  · rw [getMessages_addMessage_ne _ _ _ _ _ h]
    exact hm

/-- An accepted `send_message` in one step: persist via `addMessage`, then
fan the persisted message out to the chat's room. -/
theorem sendMessage_accepted (g : GState) (sid chatId content uid : String)
    (k : GSocket) (user : User) (ch : Chat)
    (h1 : getA g.sockets sid = some k) (h2 : k.userId = some uid)
    (h3 : g.store.getUserById uid = some user)
    (h4 : g.store.getChat chatId = some ch) :
    handleSendMessage sid chatId content g
      = { store := (g.store.addMessage chatId user.id content).2,
          sockets := emitToRoom chatId
            (.message (g.store.addMessage chatId user.id content).1 user.username)
            g.sockets } := by
  simp [handleSendMessage, h1, h2, h3, h4]

/-- Store for the C3 counterexample: channel `c` exists, user `u` with a
valid token `t` is registered. -/
def c3store : Store :=
  { users := [("u", { id := "u", username := "carol", password := "pw" })],
    usersByUsername := [("carol", { id := "u", username := "carol", password := "pw" })],
    friendMap := [],
    chats := [("c", Chat.channel "c" "#c")],
    tokens := [("t", "u")],
    messages := [("c", [])], nextId := 0 }

/-- Gateway state for the C3 counterexample: an unauthenticated socket that
is in room `c`. -/
def c3g0 : GState :=
  { store := c3store,
    sockets := [("s", { userId := none, joined := ["c"], connected := true,
                        outbox := [] })] }

/-- C3 counterexample: an unauthenticated connection issues `send_message`
for an existing chat; the handler silently returns — the whole state is
unchanged, so in particular no `error` out-event carrying `Unauthorized`
(or anything else) is delivered to the connection. -/
theorem c3_counterexample :
    handleSendMessage "s" "c" "hi" c3g0 = c3g0
    ∧ (getA (handleSendMessage "s" "c" "hi" c3g0).sockets "s").map
        (fun k => k.outbox) = some [] := by
  decide

/-- C3 (amended): a `send_message` from a connection with no bound identity
is silently ignored — the state is unchanged, so nothing is persisted or
delivered, but no `Unauthorized` error event is emitted either.  The
connection stays, and a subsequent `auth` with a valid token binds the
identity.  `join_chat` (and `leave_chat`) are not authentication-gated at
all: they succeed for unauthenticated connections. -/
theorem c3_unauthenticated_send_silently_ignored
    (g : GState) (sid chatId content : String) (k : GSocket)
    (h1 : getA g.sockets sid = some k) (h2 : k.userId = none) :
    handleSendMessage sid chatId content g = g
    ∧ (∀ token uid, g.store.getUserIdFromToken token = some uid →
        getA (handleAuth sid token g).sockets sid
          = some { k with userId := some uid, joined := setAdd k.joined uid })
    ∧ getA (handleJoinChat sid chatId g).sockets sid
        = some { k with joined := setAdd k.joined chatId } := by
  refine ⟨?_, ?_, ?_⟩
  · simp [handleSendMessage, h1, h2]
  · intro token uid h
    simp [handleAuth, h, getA_updateSocket, h1]
  · simp [handleJoinChat, getA_updateSocket, h1]

/-- C3 witness. -/
theorem c3_witness :
    handleSendMessage "s" "c" "hi" c3g0 = c3g0
    ∧ (∀ token uid, c3g0.store.getUserIdFromToken token = some uid →
        getA (handleAuth "s" token c3g0).sockets "s"
          = some { userId := some uid, joined := setAdd ["c"] uid,
                   connected := true, outbox := [] })
    ∧ getA (handleJoinChat "s" "c" c3g0).sockets "s"
        = some { userId := none, joined := setAdd ["c"] "c", connected := true,
                 outbox := [] } :=
  c3_unauthenticated_send_silently_ignored c3g0 "s" "c" "hi"
    { userId := none, joined := ["c"], connected := true, outbox := [] }
    (by decide) (by decide)

/-- Store for the C2 counterexample: the seeded `#general` channel and an
authenticated user. -/
def c2store : Store :=
  { users := [("u", { id := "u", username := "alice", password := "pw" })],
    usersByUsername := [("alice", { id := "u", username := "alice", password := "pw" })],
    friendMap := [("u", [])],
    chats := [("channel:general", Chat.channel "channel:general" "#general")],
    tokens := [("t", "u")],
    messages := [("channel:general", [])], nextId := 0 }

/-- Gateway state for the C2 counterexample: `u`'s authenticated socket,
joined to `#general`. -/
def c2g0 : GState :=
  { store := c2store,
    sockets := [("s", { userId := some "u", joined := ["channel:general"],
                        connected := true, outbox := [] })] }

/-- C2 counterexample: an authenticated connection sends empty content over
the socket path.  The handler performs no content validation: the
empty-content message is persisted to the room's history and the `message`
out-event is delivered to the member connection — the send is not rejected. -/
theorem c2_counterexample :
    (handleSendMessage "s" "channel:general" "" c2g0).store.getMessages
        "channel:general"
      = [{ id := "msg_0", chatId := "channel:general", senderId := "u",
           content := "" }]
    ∧ (getA (handleSendMessage "s" "channel:general" "" c2g0).sockets "s").map
        (fun k => k.outbox)
      = some [OutEvent.message
          { id := "msg_0", chatId := "channel:general", senderId := "u",
            content := "" } "alice"] := by
  decide

/-- C2 (amended): only the HTTP send route validates content — an
empty-content `POST /chats/:chatId/send` from an authenticated caller is
rejected with `content_required` and the state is entirely unchanged (no
message persisted, nothing delivered); the socket `send_message` path
performs no content validation, persisting and fanning out an authenticated
empty-content send like any other. -/
theorem c2_empty_content_rejected_only_on_http
    (g : GState) (token chatId uid : String) (user : User)
    (h1 : g.store.getUserIdFromToken token = some uid)
    (h2 : g.store.getUserById uid = some user) :
    httpSend token chatId "" g = (.contentRequired, g)
    ∧ (∀ sid k ch, getA g.sockets sid = some k → k.userId = some uid →
        g.store.getChat chatId = some ch →
        (handleSendMessage sid chatId "" g).store.getMessages chatId
          = g.store.getMessages chatId
            ++ [{ id := createId "msg_" g.store.nextId, chatId := chatId,
                  senderId := user.id, content := "" }]) := by
  constructor
  · simp [httpSend, h1, h2]
  · intro sid k ch hk huid hch
    rw [sendMessage_accepted g sid chatId "" uid k user ch hk huid h2 hch]
    show ((g.store.addMessage chatId user.id "").2).getMessages chatId = _
    rw [getMessages_addMessage_self]
    rfl

/-- C2 witness. -/
theorem c2_witness :
    httpSend "t" "channel:general" "" c2g0 = (.contentRequired, c2g0)
    ∧ (∀ sid k ch, getA c2g0.sockets sid = some k → k.userId = some "u" →
        c2g0.store.getChat "channel:general" = some ch →
        (handleSendMessage sid "channel:general" "" c2g0).store.getMessages
            "channel:general"
          = c2g0.store.getMessages "channel:general"
            ++ [{ id := createId "msg_" c2g0.store.nextId,
                  chatId := "channel:general",
                  senderId := "u", content := "" }]) :=
  c2_empty_content_rejected_only_on_http c2g0 "t" "channel:general" "u"
    { id := "u", username := "alice", password := "pw" }
    (by decide) (by decide)

/-- The user pair of a DM chat, `none` for other chat kinds. -/
def dmPair : Chat → Option (String × String)
  | .dm _ _ u0 u1 => some (u0, u1)
  | _ => none

/-- Two optional user pairs describe the same unordered pair. -/
def samePair : Option (String × String) → Option (String × String) → Bool
  | some (a, b), some (c, d) => (a = c && b = d) || (a = d && b = c)
  | _, _ => false

/-- No two chats in the list are DMs for the same unordered user pair. -/
def noDupDMb : List Chat → Bool
  | [] => true
  | c :: rest =>
    rest.all (fun d => !(samePair (dmPair c) (dmPair d))) && noDupDMb rest

/-- The store holds no two distinct DM chats for the same unordered pair. -/
def NoDupDM (s : Store) : Prop :=
  noDupDMb (s.chats.map (fun p => p.2)) = true

theorem samePair_dmPair (c : Chat) (a b : String) :
    samePair (dmPair c) (some (a, b)) = isDMFor c a b := by
  cases c <;> rfl

theorem samePair_of_isDMFor {x y : Chat} {a b : String}
    (hx : isDMFor x a b = true) (hy : isDMFor y a b = true) :
    samePair (dmPair x) (dmPair y) = true := by
  cases x with
  | dm xi xn x0 x1 =>
    cases y with
    | dm yi yn y0 y1 =>
      simp [isDMFor] at hx hy
      simp [dmPair, samePair]
      rcases hx with ⟨h1, h2⟩ | ⟨h1, h2⟩ <;>
        rcases hy with ⟨h3, h4⟩ | ⟨h3, h4⟩ <;>
          subst h1 <;> subst h2 <;> subst h3 <;> subst h4 <;> simp
    | channel yi yn => simp [isDMFor] at hy
    | gc yi yn ym => simp [isDMFor] at hy
  | channel xi xn => simp [isDMFor] at hx
  | gc xi xn xm => simp [isDMFor] at hx

theorem find?_isDMFor_of_noDup {l : List Chat} {a b : String} {c : Chat}
    (hnodup : noDupDMb l = true) (hmem : c ∈ l) (hdm : isDMFor c a b = true) :
    l.find? (fun d => isDMFor d a b) = some c := by
  induction l with
  | nil => simp at hmem
  | cons d rest ih =>
    simp only [noDupDMb, Bool.and_eq_true, List.all_eq_true] at hnodup
    obtain ⟨hall, hrest⟩ := hnodup
    rcases List.mem_cons.mp hmem with h | h
    · subst h
      simp [List.find?, hdm]
    · have hd : isDMFor d a b = false := by
        by_contra hcon
        have hd' : isDMFor d a b = true := by
          cases hval : isDMFor d a b
          · exact absurd hval hcon
          · rfl
        have := hall c h
        rw [samePair_of_isDMFor hd' hdm] at this
        simp at this
      simp [List.find?, hd]
      exact ih hrest h

theorem noDupDMb_append {l : List Chat} {d : Chat}
    (h : noDupDMb l = true)
    (hd : ∀ c ∈ l, samePair (dmPair c) (dmPair d) = false) :
    noDupDMb (l ++ [d]) = true := by
  induction l with
  | nil => simp [noDupDMb]
  | cons c rest ih =>
    simp only [noDupDMb, Bool.and_eq_true, List.all_eq_true] at h
    obtain ⟨hall, hrest⟩ := h
    have hcd := hd c (List.mem_cons_self c rest)
    simp only [List.cons_append, noDupDMb, Bool.and_eq_true, List.all_eq_true]
    refine ⟨?_, ih hrest (fun c' hc' => hd c' (List.mem_cons_of_mem _ hc'))⟩
    intro e he
    rcases List.mem_append.mp he with he | he
    · exact hall e he
    · simp at he
      subst he
      simp [hcd]

/-- C9: `createDM` is idempotent and symmetric in the unordered user pair —
when a DM chat for the pair already exists (in either slot order), it is
returned and the store is unchanged — and it preserves the invariant that
the store never holds two distinct DM chats for the same unordered pair. -/
theorem c9_createDM_idempotent_symmetric
    (s : Store) (a b : String) (c : Chat)
    (hmem : c ∈ s.chats.map (fun p => p.2))
    (hdm : isDMFor c a b = true)
    (hnodup : NoDupDM s)
    (hfresh : getA s.chats (createId "dm_" s.nextId) = none) :
    s.createDM a b = (c, s)
    ∧ ∀ a' b' : String, NoDupDM (s.createDM a' b').2 := by
  have hfind := find?_isDMFor_of_noDup hnodup hmem hdm
  constructor
  · simp [Store.createDM, hfind]
  · intro a' b'
    cases hf : (s.chats.map (fun p => p.2)).find? (fun d => isDMFor d a' b') with
    | some c' =>
      simpa [Store.createDM, hf] using hnodup
    | none =>
      have hnone := List.find?_eq_none.mp hf
      show noDupDMb _ = true
      simp only [Store.createDM, hf]
      rw [setA_of_getA_none _ _ _ hfresh, List.map_append]
      apply noDupDMb_append hnodup
      intro c'' hc''
      rw [show dmPair (Chat.dm (createId "dm_" s.nextId) "DM" a' b')
            = some (a', b') from rfl]
      rw [samePair_dmPair]
      have := hnone c'' hc''
      simpa using this

/-- Store for the C9 witness: one existing DM for the pair `(u1, u2)`. -/
def c9s : Store :=
  { users := [], usersByUsername := [], friendMap := [],
    chats := [("dm_0", Chat.dm "dm_0" "DM" "u1" "u2")],
    tokens := [], messages := [("dm_0", [])], nextId := 1 }

/-- C9 witness: opening the DM with the pair reversed returns the existing
chat unchanged. -/
theorem c9_witness :
    c9s.createDM "u2" "u1" = (Chat.dm "dm_0" "DM" "u1" "u2", c9s)
    ∧ ∀ a' b' : String, NoDupDM (c9s.createDM a' b').2 :=
  c9_createDM_idempotent_symmetric c9s "u2" "u1"
    (Chat.dm "dm_0" "DM" "u1" "u2")
    (by decide) (by decide) (by rfl) (by decide)

/-- C10: registering an already-taken username fails atomically — the
route answers 400 with the thrown message and the store is entirely
unchanged — while a fresh username yields a user retrievable both by id and
by username, with an empty friend set. -/
theorem c10_register_duplicate_rejected_atomically
    (g : GState) (username password : String)
    (hu : username ≠ "") (hp : password ≠ "") :
    ((getA g.store.usersByUsername username).isSome = true →
        httpRegister username password g
          = (.badRequest "Username already taken", g))
    ∧ (∀ user s', g.store.createUser username password = .ok (user, s') →
        s'.getUserById user.id = some user
        ∧ s'.getUserByUsername username = some user
        ∧ s'.getFriends user.id = []) := by
  constructor
  · intro h
    simp [httpRegister, hu, hp, Store.createUser, h]
  · intro user s' h
    unfold Store.createUser at h
    by_cases hex : (getA g.store.usersByUsername username).isSome = true
    · simp [hex] at h
    · simp [hex] at h
      obtain ⟨huser, hs'⟩ := h
      subst huser
      subst hs'
      refine ⟨?_, ?_, ?_⟩
      · simp [Store.getUserById, getA_setA_self]
      · simp [Store.getUserByUsername, getA_setA_self]
      · simp [Store.getFriends, getA_setA_self]

/-- Store for the C10 witness: `bob` is already registered. -/
def c10s0 : Store :=
  { users := [("user_0", { id := "user_0", username := "bob", password := "pw" })],
    usersByUsername := [("bob", { id := "user_0", username := "bob", password := "pw" })],
    friendMap := [("user_0", [])],
    chats := [], tokens := [], messages := [], nextId := 1 }

/-- Gateway state for the C10 witness. -/
def c10g : GState := { store := c10s0, sockets := [] }

/-- The store after additionally registering `alice` into `c10s0`. -/
def c10s2 : Store :=
  { users := [("user_0", { id := "user_0", username := "bob", password := "pw" }),
              ("user_1", { id := "user_1", username := "alice", password := "pw" })],
    usersByUsername := [("bob", { id := "user_0", username := "bob", password := "pw" }),
                        ("alice", { id := "user_1", username := "alice", password := "pw" })],
    friendMap := [("user_0", []), ("user_1", [])],
    chats := [], tokens := [], messages := [], nextId := 2 }

/-- C10 witness: re-registering `bob` is rejected with the store unchanged;
registering the fresh `alice` makes her retrievable by id and username with
no friends. -/
theorem c10_witness :
    httpRegister "bob" "pw" c10g = (.badRequest "Username already taken", c10g)
    ∧ (c10s2.getUserById "user_1"
          = some { id := "user_1", username := "alice", password := "pw" }
       ∧ c10s2.getUserByUsername "alice"
          = some { id := "user_1", username := "alice", password := "pw" }
       ∧ c10s2.getFriends "user_1" = []) :=
  ⟨(c10_register_duplicate_rejected_atomically c10g "bob" "pw"
      (by decide) (by decide)).1 (by decide),
   (c10_register_duplicate_rejected_atomically c10g "alice" "pw"
      (by decide) (by decide)).2
      { id := "user_1", username := "alice", password := "pw" } c10s2 (by rfl)⟩

theorem mem_setA {α : Type} {l : List (String × α)} {k : String} {v : α}
    {p : String × α} (h : p ∈ setA l k v) : p ∈ l ∨ p = (k, v) := by
  induction l with
  | nil =>
    simp [setA] at h
    right
    exact h
  | cons q rest ih =>
    obtain ⟨k', v'⟩ := q
    by_cases hk : k' = k
    · simp only [setA, if_pos hk, List.mem_cons] at h
      rcases h with h | h
      · right
        exact h
      · left
        exact List.mem_cons_of_mem _ h
    · simp only [setA, if_neg hk, List.mem_cons] at h
      rcases h with h | h
      · left
        simp [h]
      · rcases ih h with h' | h'
        · left
          exact List.mem_cons_of_mem _ h'
        · right
          exact h'

theorem outboxPersisted_updateSocket (g : GState) (sid : String)
    (f : GSocket → GSocket) (hf : ∀ k, (f k).outbox = k.outbox)
    (hinv : outboxPersisted g) :
    outboxPersisted { g with sockets := updateSocket sid f g.sockets } := by
  intro p hp ev hev m u heq
  obtain ⟨q, hq, hFq⟩ := List.mem_map.mp hp
  have houtbox : p.2.outbox = q.2.outbox := by
    rw [← hFq]
    by_cases h : q.1 = sid <;> simp [h, hf]
  exact hinv q hq ev (houtbox ▸ hev) m u heq

theorem outboxPersisted_of_messages_eq (g : GState) (s' : Store)
    (h : s'.messages = g.store.messages) (hinv : outboxPersisted g) :
    outboxPersisted { g with store := s' } := by
  intro p hp ev hev m u heq
  have hmem := hinv p hp ev hev m u heq
  show m ∈ s'.getMessages m.chatId
  rw [Store.getMessages, h]
  exact hmem

theorem createUser_messages (s : Store) (u p : String) (user : User)
    (s' : Store) (h : s.createUser u p = .ok (user, s')) :
    s'.messages = s.messages := by
  unfold Store.createUser at h
  by_cases hex : (getA s.usersByUsername u).isSome = true
  · simp [hex] at h
  · simp [hex] at h
    obtain ⟨_, hs'⟩ := h
    rw [← hs']

theorem outboxPersisted_emitAdd (g : GState) (chatId uid ct username : String)
    (hinv : outboxPersisted g) :
    outboxPersisted
      { store := (g.store.addMessage chatId uid ct).2,
        sockets := emitToRoom chatId
          (OutEvent.message (g.store.addMessage chatId uid ct).1 username)
          g.sockets } := by
  intro p hp ev hev m u heq
  obtain ⟨q, hq, hFq⟩ := List.mem_map.mp hp
  by_cases hj : chatId ∈ q.2.joined
  · have houtbox : p.2.outbox
        = q.2.outbox
          ++ [OutEvent.message (g.store.addMessage chatId uid ct).1 username] := by
      rw [← hFq]
      simp [hj]
    rw [houtbox] at hev
    rcases List.mem_append.mp hev with h | h
    · exact mem_getMessages_addMessage _ _ _ _ _ _ (hinv q hq ev h m u heq)
    · simp only [List.mem_singleton] at h
      rw [h] at heq
      injection heq with h1 h2
      rw [← h1]
      show (g.store.addMessage chatId uid ct).1
          ∈ ((g.store.addMessage chatId uid ct).2).getMessages chatId
      rw [getMessages_addMessage_self]
      exact List.mem_append_right _ (List.mem_singleton.mpr rfl)
  · have houtbox : p.2.outbox = q.2.outbox := by
      rw [← hFq]
      simp [hj]
    rw [houtbox] at hev
    exact mem_getMessages_addMessage _ _ _ _ _ _ (hinv q hq ev hev m u heq)

/-- Every reachable gateway step preserves the persist-before-fanout
invariant: a `message` out-event only ever references a message already in
the store's history. -/
theorem gstep_preserves_outboxPersisted (s s' : GState) (hstep : GStep s s')
    (hinv : outboxPersisted s) : outboxPersisted s' := by
  cases hstep with
  | connect sid =>
    intro p hp ev hev m u heq
    rcases mem_setA hp with h | h
    · exact hinv p h ev hev m u heq
    · rw [h] at hev
      simp at hev
  | auth sid token =>
    unfold handleAuth
    split
    · exact hinv
    · exact outboxPersisted_updateSocket s sid _ (fun k => rfl) hinv
  | joinChat sid chatId =>
    exact outboxPersisted_updateSocket s sid _ (fun k => rfl) hinv
  | leaveChat sid chatId =>
    exact outboxPersisted_updateSocket s sid _ (fun k => rfl) hinv
  | sendMessage sid chatId content =>
    unfold handleSendMessage
    split
    · exact hinv
    · split
      · exact hinv
      · split
        · exact hinv
        · split
          · exact hinv
          · exact outboxPersisted_emitAdd s chatId _ content _ hinv
  | httpSendEv token chatId content =>
    unfold httpSend
    split
    · exact hinv
    · split
      · exact hinv
      · split
        · exact hinv
        · split
          · exact hinv
          · exact outboxPersisted_emitAdd s chatId _ content _ hinv
  | register username password =>
    unfold httpRegister
    split
    · exact hinv
    · split
      · exact hinv
      · rename_i user s2 hcu
        apply outboxPersisted_of_messages_eq
        · show ((s2.createTokenForUser user.id).2).messages = s.store.messages
          have h1 : ((s2.createTokenForUser user.id).2).messages = s2.messages := rfl
          rw [h1]
          exact createUser_messages _ _ _ _ _ hcu
        · exact hinv
  | disconnect sid =>
    exact outboxPersisted_updateSocket s sid _ (fun k => rfl) hinv

/-- C1: two accepted sends to the same room, in order A then B, are
persisted in that order — the room's history is extended by exactly
`[msgA, msgB]` — and every member connection's event log is extended by the
two `message` out-events in that same order; moreover every gateway step
preserves the invariant that a `message` out-event is only delivered for a
message already persisted in the store (persist before fan-out). -/
theorem c1_sends_ordered_and_persisted_before_fanout
    (g : GState) (sidA sidB chatId cA cB uidA uidB : String)
    (sockA sockB : GSocket) (userA userB : User) (ch : Chat)
    (hA1 : getA g.sockets sidA = some sockA) (hA2 : sockA.userId = some uidA)
    (hA3 : g.store.getUserById uidA = some userA)
    (hB1 : getA g.sockets sidB = some sockB) (hB2 : sockB.userId = some uidB)
    (hB3 : g.store.getUserById uidB = some userB)
    (hch : g.store.getChat chatId = some ch) :
    (handleSendMessage sidB chatId cB
        (handleSendMessage sidA chatId cA g)).store.getMessages chatId
      = g.store.getMessages chatId
        ++ [{ id := createId "msg_" g.store.nextId, chatId := chatId,
              senderId := userA.id, content := cA },
            { id := createId "msg_" (g.store.nextId + 1), chatId := chatId,
              senderId := userB.id, content := cB }]
    ∧ (∀ p ∈ g.sockets, chatId ∈ p.2.joined →
        (p.1, { p.2 with outbox := p.2.outbox
            ++ [OutEvent.message
                  { id := createId "msg_" g.store.nextId, chatId := chatId,
                    senderId := userA.id, content := cA } userA.username,
                OutEvent.message
                  { id := createId "msg_" (g.store.nextId + 1), chatId := chatId,
                    senderId := userB.id, content := cB } userB.username] })
          ∈ (handleSendMessage sidB chatId cB
              (handleSendMessage sidA chatId cA g)).sockets)
    ∧ (∀ s s' : GState, GStep s s' → outboxPersisted s → outboxPersisted s') := by
  have e1 := sendMessage_accepted g sidA chatId cA uidA sockA userA ch
    hA1 hA2 hA3 hch
  have hB1' : getA (handleSendMessage sidA chatId cA g).sockets sidB
      = some (if chatId ∈ sockB.joined
              then { sockB with outbox := sockB.outbox
                  ++ [OutEvent.message (g.store.addMessage chatId userA.id cA).1
                        userA.username] }
              else sockB) := by
    rw [e1]
    show getA (emitToRoom chatId _ g.sockets) sidB = _
    rw [getA_emitToRoom, hB1]
    rfl
  have hB2' : (if chatId ∈ sockB.joined
              then { sockB with outbox := sockB.outbox
                  ++ [OutEvent.message (g.store.addMessage chatId userA.id cA).1
                        userA.username] }
              else sockB).userId = some uidB := by
    by_cases hj : chatId ∈ sockB.joined <;> simp [hj, hB2]
  have hB3' : (handleSendMessage sidA chatId cA g).store.getUserById uidB
      = some userB := by
    rw [e1]
    exact hB3
  have hch' : (handleSendMessage sidA chatId cA g).store.getChat chatId
      = some ch := by
    rw [e1]
    exact hch
  have e2 := sendMessage_accepted (handleSendMessage sidA chatId cA g)
    sidB chatId cB uidB _ userB ch hB1' hB2' hB3' hch'
  refine ⟨?_, ?_, fun s s' => gstep_preserves_outboxPersisted s s'⟩
  · rw [e2]
    show ((handleSendMessage sidA chatId cA g).store.addMessage
        chatId userB.id cB).2.getMessages chatId = _
    rw [getMessages_addMessage_self, e1]
    show ((g.store.addMessage chatId userA.id cA).2.getMessages chatId) ++ _ = _
    rw [getMessages_addMessage_self, List.append_assoc]
    rfl
  · intro p hp hj
    rw [e2, e1]
    show (p.1, _) ∈ emitToRoom chatId _ (emitToRoom chatId _ g.sockets)
    rw [emitToRoom, emitToRoom, List.map_map]
    refine mem_map_pair _ _ hp ?_
    show (p.1, _) = (p.1, _)
    simp only [Function.comp, hj, if_pos, List.append_assoc]
    rfl

/-- Store for the C1 witness: channel `c`, users `u1`/`u2`. -/
def c1store : Store :=
  { users := [("u1", { id := "u1", username := "alice", password := "pw" }),
              ("u2", { id := "u2", username := "bob", password := "pw" })],
    usersByUsername := [("alice", { id := "u1", username := "alice", password := "pw" }),
                        ("bob", { id := "u2", username := "bob", password := "pw" })],
    friendMap := [],
    chats := [("c", Chat.channel "c" "#c")],
    tokens := [("t1", "u1"), ("t2", "u2")],
    messages := [("c", [])], nextId := 0 }

/-- Gateway state for the C1 witness: both users' sockets joined to `c`. -/
def c1g0 : GState :=
  { store := c1store,
    sockets := [("sA", { userId := some "u1", joined := ["c"], connected := true,
                         outbox := [] }),
                ("sB", { userId := some "u2", joined := ["c"], connected := true,
                         outbox := [] })] }

/-- C1 witness. -/
theorem c1_witness :
    (handleSendMessage "sB" "c" "hello"
        (handleSendMessage "sA" "c" "hi" c1g0)).store.getMessages "c"
      = c1g0.store.getMessages "c"
        ++ [{ id := createId "msg_" c1g0.store.nextId, chatId := "c",
              senderId := "u1", content := "hi" },
            { id := createId "msg_" (c1g0.store.nextId + 1), chatId := "c",
              senderId := "u2", content := "hello" }]
    ∧ (∀ p ∈ c1g0.sockets, "c" ∈ p.2.joined →
        (p.1, { p.2 with outbox := p.2.outbox
            ++ [OutEvent.message
                  { id := createId "msg_" c1g0.store.nextId, chatId := "c",
                    senderId := "u1", content := "hi" } "alice",
                OutEvent.message
                  { id := createId "msg_" (c1g0.store.nextId + 1), chatId := "c",
                    senderId := "u2", content := "hello" } "bob"] })
          ∈ (handleSendMessage "sB" "c" "hello"
              (handleSendMessage "sA" "c" "hi" c1g0)).sockets)
    ∧ (∀ s s' : GState, GStep s s' → outboxPersisted s → outboxPersisted s') :=
  c1_sends_ordered_and_persisted_before_fanout c1g0 "sA" "sB" "c" "hi" "hello"
    "u1" "u2"
    { userId := some "u1", joined := ["c"], connected := true, outbox := [] }
    { userId := some "u2", joined := ["c"], connected := true, outbox := [] }
    { id := "u1", username := "alice", password := "pw" }
    { id := "u2", username := "bob", password := "pw" }
    (Chat.channel "c" "#c")
    (by decide) (by decide) (by decide) (by decide) (by decide) (by decide)
    (by decide)

end CloudNet
